import Mathlib

set_option maxRecDepth 16384

/-!
# Verification of the zydec instruction-to-pseudocode translator

Shallow embedding of `src/zydec/src/zydec.cpp`.

The C code threads a pair `(char **pBufferPos, size_t *pRemainingSize)`
through every write; each rendering function is a straight-line sequence of
`ERROR_CHECK`ed writes whose texts depend only on the decoded input, never on
the remaining capacity.  We embed this in two stages that mirror the source:

* `EmitProg` is the sequence of write attempts a rendering function performs
  (`raw` for one `zydec_WriteRaw` call, `fail` for a `return false`,
  `seq` for `ERROR_CHECK` sequencing);
* `run` executes such a sequence against the buffer-writer state exactly as
  `zydec_WriteRaw` does: an over-capacity write aborts, leaving the content
  written so far in place.

Machine integers are modelled as `Nat` (`uint64_t`, `size_t`) and `Int`
(`int64_t`); overflow is made explicit with `% 2 ^ 64` where the C code can
wrap.  Null pointers are modelled as `Option`/`Bool` parameters of the entry
point.
-/

/-- Buffer-writer state: `out` is the text written so far (the buffer holds
`out` followed by a null terminator after every successful write), `rem` is
`*pRemainingSize`, initialised by the caller to `bufferCapacity - 1`. -/
structure WState where
  out : String
  rem : Nat
deriving DecidableEq, Repr

/-- `zydec_WriteRaw` (zydec.cpp:1305-1318): if the text is longer than the
remaining capacity, write nothing and fail; otherwise append the text (plus a
terminator, not counted) and shrink the capacity. A failure carries the
unchanged state, matching the C code which leaves the buffer as it was. -/
def zydec_WriteRaw (text : String) (st : WState) : Except WState WState :=
  if text.length > st.rem then .error st
  else .ok { out := st.out ++ text, rem := st.rem - text.length }

/-- The write sequence a rendering function attempts: one raw write, an
unconditional `return false`, or `ERROR_CHECK`-style sequencing. -/
inductive EmitProg where
  | raw (text : String)
  | fail
  | seq (a b : EmitProg)
deriving DecidableEq, Repr

/-- Sequence a list of write attempts, mirroring consecutive `ERROR_CHECK`
lines in the source. -/
def pseq : List EmitProg → EmitProg
  | [] => .raw ""
  | [p] => p
  | p :: q :: rest => .seq p (pseq (q :: rest))

/-- Execute a write sequence against the buffer writer: exactly the
`ERROR_CHECK(zydec_WriteRaw(...))` chains of the source. -/
def run : EmitProg → WState → Except WState WState
  | .raw t, st => zydec_WriteRaw t st
  | .fail, st => .error st
  | .seq a b, st => (run a st).bind (run b)

/-- The total text a write sequence emits when no write fails;
`none` when the sequence contains an unconditional `return false`. -/
def flatten : EmitProg → Option String
  | .raw t => some t
  | .fail => none
  | .seq a b =>
    match flatten a, flatten b with
    | some x, some y => some (x ++ y)
    | _, _ => none

/-! ## Numeric formatters (zydec.cpp:1133-1195)

`zydec_WriteUInt` assembles decimal digits least-significant first into a
20-byte scratch buffer, then issues a single `zydec_WriteRaw` of the
assembled string; `zydec_WriteHex` does the same with a 19-byte scratch,
prefix `0x` and uppercase hex digits.  We model the assembled character list
directly; the recursion is bounded by a fuel argument (a 64-bit value has at
most 20 decimal / 16 hex digits, so fuel 24 is never exhausted on the
C domain). -/

/-- Digit-assembly loop of `zydec_WriteUInt` (zydec.cpp:1140-1150): while
`tmp >= 10` emit `'0' + tmp % 10` and divide; afterwards emit one more digit
only if `tmp != 0` (so value `0` assembles the empty string). The accumulator
holds the digits already placed to the right of the cursor. -/
def uintGo : Nat → Nat → List Char → List Char
  | 0, _, acc => acc
  | fuel + 1, tmp, acc =>
    if 10 ≤ tmp then uintGo fuel (tmp / 10) (Char.ofNat (48 + tmp % 10) :: acc)
    else if tmp ≠ 0 then Char.ofNat (48 + tmp % 10) :: acc
    else acc

/-- The string `zydec_WriteUInt` hands to `zydec_WriteRaw`. -/
def uintStr (value : Nat) : String :=
  String.mk (uintGo 24 value [])

/-- `zydec_WriteUInt` (zydec.cpp:1133-1153): assemble the decimal digits in
the local scratch, then perform one raw write of the assembled string. -/
def zydec_WriteUInt (value : Nat) : EmitProg :=
  .raw (uintStr value)

/-- `lut[] = "0123456789ABCDEF"` (zydec.cpp:1162). -/
def hexLut (n : Nat) : Char :=
  List.getD ['0', '1', '2', '3', '4', '5', '6', '7', '8', '9', 'A', 'B', 'C', 'D', 'E', 'F'] n '0'

/-- Digit-assembly loop of `zydec_WriteHex` (zydec.cpp:1164-1175): while
`tmp >= 0xF` (note: `0xF`, not `0x10`, as in the source) emit `lut[tmp & 0xF]`
and shift; afterwards emit one more digit only if `tmp != 0`. -/
def hexGo : Nat → Nat → List Char → List Char
  | 0, _, acc => acc
  | fuel + 1, tmp, acc =>
    if 15 ≤ tmp then hexGo fuel (tmp / 16) (hexLut (tmp % 16) :: acc)
    else if tmp ≠ 0 then hexLut (tmp % 16) :: acc
    else acc

/-- The string `zydec_WriteHex` hands to `zydec_WriteRaw`: `'0'`, `'x'`
(written last, at the front, zydec.cpp:1177-1179), then the assembled
digits. -/
def hexStr (value : Nat) : String :=
  String.mk ('0' :: 'x' :: hexGo 24 value [])

/-- `zydec_WriteHex` (zydec.cpp:1155-1182). -/
def zydec_WriteHex (value : Nat) : EmitProg :=
  .raw (hexStr value)

/-- `zydec_WriteInt` (zydec.cpp:1184-1195): a negative value writes `"-"`
then the unsigned rendering of `(uint64_t)-value` (for any `int64_t` other
than the minimum, whose negation the C code may not take, this is the
absolute value). -/
def zydec_WriteInt (value : Int) : EmitProg :=
  if value < 0 then .seq (.raw "-") (zydec_WriteUInt value.natAbs)
  else zydec_WriteUInt value.toNat

/-- The total text `zydec_WriteInt` emits. -/
def intStr (value : Int) : String :=
  if value < 0 then "-" ++ uintStr value.natAbs else uintStr value.toNat

/-! ## Scratch-buffer store offsets of `zydec_WriteUInt`

For the memory-safety claim we model the same loop at the level of store
offsets into the 20-byte local `buffer`.  `bufFromEnd` starts at offset 18
(`buffer + sizeof(buffer) - 2`) and moves down by one after each digit
store; the final conditional digit is stored at the cursor reached after the
loop. -/

/-- Offsets stored to by the loop body and the final conditional store of
`zydec_WriteUInt`, starting with cursor `pos`. -/
def uintStoreGo : Nat → Nat → Int → List Int
  | 0, _, _ => []
  | fuel + 1, tmp, pos =>
    if 10 ≤ tmp then pos :: uintStoreGo fuel (tmp / 10) (pos - 1)
    else if tmp ≠ 0 then [pos]
    else []

/-- All offsets (relative to the start of the 20-byte scratch `buffer`) that
`zydec_WriteUInt` stores to for a given value: the terminator store
`buffer[19] = 0` (zydec.cpp:1136), then the digit stores starting at
offset 18. -/
def zydec_WriteUIntStores (value : Nat) : List Int :=
  19 :: uintStoreGo 24 value 18

example : uintStr 0 = "" := by decide
example : uintStr 5 = "5" := by decide
example : uintStr 4294967295 = "4294967295" := by decide
example : hexStr 0 = "0x" := by decide
example : hexStr 255 = "0xFF" := by decide
example : hexStr 4096 = "0x1000" := by decide
example : zydec_WriteUIntStores 9 = [19, 18] := by decide
example : (-1 : Int) ∈ zydec_WriteUIntStores (10 ^ 19) := by decide

/-! ## Register resolver (zydec.cpp:821-1129, 1295-1303) -/

/-- The static register-name table `RegisterNameLut` (zydec.cpp:821-1129),
indexed by the architectural register identifier; entry 0 is the
"no register" sentinel and maps to the empty string. -/
def RegisterNameLut : List String := [
    "", "(i8)a", "(i8)c", "(i8)d", "(i8)b", "(i8)(a >> 8)",
    "(i8)(c >> 8)", "(i8)(d >> 8)", "(i8)(b >> 8)", "(i8)stack_pointer", "(i8)bp", "(i8)si",
    "(i8)di", "(i8)r8", "(i8)r9", "(i8)r10", "(i8)r11", "(i8)r12",
    "(i8)r13", "(i8)r14", "(i8)r15", "(i16)a", "(i16)c", "(i16)d",
    "(i16)b", "(i16)stack_pointer", "(i16)bp", "(i16)si", "(i16)di", "(i16)r8",
    "(i16)r9", "(i16)r10", "(i16)r11", "(i16)r12", "(i16)r13", "(i16)r14",
    "(i16)r15", "(i32)ax", "(i32)cx", "(i32)dx", "(i32)bx", "(i32)stack_pointer",
    "(i32)bp", "(i32)si", "(i32)di", "(i32)r8", "(i32)r9", "(i32)r10",
    "(i32)r11", "(i32)r12", "(i32)r13", "(i32)r14", "(i32)r15", "(i64)a",
    "(i64)c", "(i64)d", "(i64)b", "(i64)stack_pointer", "(i64)bp", "(i64)si",
    "(i64)di", "(i64)r8", "(i64)r9", "(i64)r10", "(i64)r11", "(i64)r12",
    "(i64)r13", "(i64)r14", "(i64)r15", "(float)s0", "(float)s1", "(float)s2",
    "(float)s3", "(float)s4", "(float)s5", "(float)s6", "(float)s7", "x87control",
    "x87status", "x87tag", "(float)mm0", "(float)mm1", "(float)mm2", "(float)mm3",
    "(float)mm4", "(float)mm5", "(float)mm6", "(float)mm7", "(m128)x0", "(m128)x1",
    "(m128)x2", "(m128)x3", "(m128)x4", "(m128)x5", "(m128)x6", "(m128)x7",
    "(m128)x8", "(m128)x9", "(m128)x10", "(m128)x11", "(m128)x12", "(m128)x13",
    "(m128)x14", "(m128)x15", "(m128)x16", "(m128)x17", "(m128)x18", "(m128)x19",
    "(m128)x20", "(m128)x21", "(m128)x22", "(m128)x23", "(m128)x24", "(m128)x25",
    "(m128)x26", "(m128)x27", "(m128)x28", "(m128)x29", "(m128)x30", "(m128)x31",
    "(m256)y0", "(m256)y1", "(m256)y2", "(m256)y3", "(m256)y4", "(m256)y5",
    "(m256)y6", "(m256)y7", "(m256)y8", "(m256)y9", "(m256)y10", "(m256)y11",
    "(m256)y12", "(m256)y13", "(m256)y14", "(m256)y15", "(m256)y16", "(m256)y17",
    "(m256)y18", "(m256)y19", "(m256)y20", "(m256)y21", "(m256)y22", "(m256)y23",
    "(m256)y24", "(m256)y25", "(m256)y26", "(m256)y27", "(m256)y28", "(m256)y29",
    "(m256)y30", "(m256)y31", "(m512)z0", "(m512)z1", "(m512)z2", "(m512)z3",
    "(m512)z4", "(m512)z5", "(m512)z6", "(m512)z7", "(m512)z8", "(m512)z9",
    "(m512)z10", "(m512)z11", "(m512)z12", "(m512)z13", "(m512)z14", "(m512)z15",
    "(m512)z16", "(m512)z17", "(m512)z18", "(m512)z19", "(m512)z20", "(m512)z21",
    "(m512)z22", "(m512)z23", "(m512)z24", "(m512)z25", "(m512)z26", "(m512)z27",
    "(m512)z28", "(m512)z29", "(m512)z30", "(m512)z31", "(matrix_tile)t0", "(matrix_tile)t1",
    "(matrix_tile)t2", "(matrix_tile)t3", "(matrix_tile)t4", "(matrix_tile)t5", "(matrix_tile)t6", "(matrix_tile)t7",
    "flags", "eflags", "rflags", "instruction_pointer", "instruction_pointer32", "instruction_pointer64",
    "extra_segment", "code_segment", "stack_segment", "data_segment", "f_segment", "g_segment",
    "table_gdtr", "table_ldtr", "table_idtr", "table_tr", "test_tr0", "test_tr1",
    "test_tr2", "test_tr3", "test_tr4", "test_tr5", "test_tr6", "test_tr7",
    "control_cr0", "control_cr1", "control_cr2", "control_cr3", "control_cr4", "control_cr5",
    "control_cr6", "control_cr7", "control_cr8", "control_cr9", "control_cr10", "control_cr11",
    "control_cr12", "control_cr13", "control_cr14", "control_cr15", "debug_dr0", "debug_dr1",
    "debug_dr2", "debug_dr3", "debug_dr4", "debug_dr5", "debug_dr6", "debug_dr7",
    "debug_dr8", "debug_dr9", "debug_dr10", "debug_dr11", "debug_dr12", "debug_dr13",
    "debug_dr14", "debug_dr15", "mask_k0", "mask_k1", "mask_k2", "mask_k3",
    "mask_k4", "mask_k5", "mask_k6", "mask_k7", "bound_bnd0", "bound_bnd1",
    "bound_bnd2", "bound_bnd3", "bound_bndcfg", "bound_bndstatus", "mxcsr", "pkru",
    "xcr0", "uif"]

/-- `zydec_WriteRegister` (zydec.cpp:1295-1303): fail if the register id is
outside the table, otherwise write the table entry. -/
def zydec_WriteRegister (reg : Nat) : EmitProg :=
  if reg < RegisterNameLut.length then .raw (RegisterNameLut.getD reg "")
  else .fail

example : RegisterNameLut.length = 266 := by decide
example : zydec_WriteRegister 53 = .raw "(i64)a" := by decide
example : zydec_WriteRegister 0 = .raw "" := by decide
example : zydec_WriteRegister 266 = .fail := by decide

/-! ## Decoded operands (interface consumed from the decoder) -/

/-- `ZydisMemoryOperandType`: `MEM` (dereferenced), `MIB`, `AGEN`
(address generation); any other tag makes `zydec_WriteOperand` fail. -/
inductive MemOpKind where
  | mem
  | mib
  | agen
  | invalid
deriving DecidableEq, Repr

/-- The memory payload of a decoded operand (`pOperand->mem`): addressing
kind, segment/base/index register ids (`0` = `ZYDIS_REGISTER_NONE`), scale
factor, and the displacement with its `has_displacement` flag
(`disp.value` is an `int64_t`). -/
structure MemOperand where
  kind : MemOpKind
  segment : Nat
  base : Nat
  index : Nat
  scale : Nat
  has_displacement : Bool
  dispValue : Int
deriving DecidableEq, Repr

/-- The immediate payload (`pOperand->imm`): the raw 64-bit value (the C
union lets it be read unsigned as `value.u` or signed as `value.s`), plus the
signedness and relative flags. -/
structure ImmOperand where
  value : Nat
  is_signed : Bool
  is_relative : Bool
deriving DecidableEq, Repr

/-- Signed (`value.s`) reading of the 64-bit immediate union field. -/
def int64OfBits (v : Nat) : Int :=
  if v < 2 ^ 63 then (v : Int) else (v : Int) - 2 ^ 64

/-- A decoded operand: the `ZYDIS_OPERAND_TYPE_*` tag with its payload.
`pointer` and `unused` carry no payload because `zydec_WriteOperand` rejects
them via the `default` branch; `pointer` is distinguished because the vector
move templates test for it. -/
inductive Operand where
  | register (reg : Nat)
  | memory (mem : MemOperand)
  | pointer
  | immediate (imm : ImmOperand)
  | unused
deriving DecidableEq, Repr

/-- `pOperands[i].type == ZYDIS_OPERAND_TYPE_MEMORY || pOperands[i].type ==
ZYDIS_OPERAND_TYPE_POINTER` (zydec.cpp:234-236, 305-307). -/
def Operand.isMemOrPtr : Operand → Bool
  | .memory _ => true
  | .pointer => true
  | _ => false

/-- `zydec_WriteOperand` (zydec.cpp:1197-1293), dispatching on the operand
tag.  A memory operand opens with `"("` for AGEN and `"*("` otherwise, then
writes `segment: base`; a direct (`MEM`) operand appends the displacement
clause if `has_displacement`, **else** the index/scale clause if an index
register is present; `MIB`/`AGEN` operands append only the displacement
clause.  A relative immediate renders the 64-bit sum of the virtual address
and the immediate in hex; otherwise signed or unsigned decimal. -/
def zydec_WriteOperand (op : Operand) (virtualAddress : Nat) : EmitProg :=
  match op with
  | .register reg => zydec_WriteRegister reg
  | .memory mem =>
    .seq (.raw (if mem.kind = MemOpKind.agen then "(" else "*("))
      (match mem.kind with
       | .mem =>
         pseq [zydec_WriteRegister mem.segment, .raw ": ", zydec_WriteRegister mem.base,
               (if mem.has_displacement then
                  .seq (.raw " + ") (zydec_WriteInt mem.dispValue)
                else if mem.index ≠ 0 then
                  .seq (.raw " + ")
                    (if mem.scale ≠ 1 then
                       pseq [.raw "(", zydec_WriteRegister mem.index, .raw " * ",
                             zydec_WriteUInt mem.scale, .raw ")"]
                     else zydec_WriteRegister mem.index)
                else .raw ""),
               .raw ")"]
       | .mib | .agen =>
         pseq [zydec_WriteRegister mem.segment, .raw ": ", zydec_WriteRegister mem.base,
               (if mem.has_displacement then
                  .seq (.raw " + ") (zydec_WriteInt mem.dispValue)
                else .raw ""),
               .raw ")"]
       | .invalid => .fail)
  | .immediate imm =>
    if imm.is_relative then zydec_WriteHex ((virtualAddress + imm.value) % 2 ^ 64)
    else if imm.is_signed then zydec_WriteInt (int64OfBits imm.value)
    else zydec_WriteUInt imm.value
  | _ => .fail

example : flatten (zydec_WriteOperand (.immediate ⟨0x10, false, true⟩) 0x400000)
    = some "0x400010" := by decide
example : flatten (zydec_WriteOperand (.memory ⟨.mem, 0, 59, 54, 4, false, 0⟩) 0)
    = some "*(: (i64)si + ((i64)c * 4))" := by decide
example : flatten (zydec_WriteOperand (.memory ⟨.mem, 0, 59, 54, 4, true, -8⟩) 0)
    = some "*(: (i64)si + -8)" := by decide

/-! ## Mnemonics and the translator (zydec.cpp:48-817) -/

/-- The mnemonics the translator's `switch` recognises, plus `unsupported`
standing for every other `ZydisMnemonic` (all of which reach the `default`
branch, zydec.cpp:809-811). -/
inductive Mnemonic where
  | mov | lea | test | cmp | call | jmp
  | jb | jbe | jcxz | jecxz | jl | jle | jnb | jnbe | jnl | jnle
  | jno | jnp | jns | jnz | jo | jp | js | jz
  | sub | add | and | or
  | movaps | movapd | vmovdqa | vmovdqa32 | vmovdqa64
  | movups | movupd | movq | lddqu | vmovd
  | vmovdqu | vmovdqu16 | vmovdqu32 | vmovdqu64 | vmovdqu8
  | pand | vpand | vpandq | vpandd | pandn | vpandn | vpandnq | vpandnd
  | pcmpeqb | pcmpeqw | pcmpeqd | pcmpeqq | vpcmpeqb | vpcmpeqw | vpcmpeqd | vpcmpeqq
  | pcmpgtb | pcmpgtw | pcmpgtd | pcmpgtq | vpcmpgtb | vpcmpgtw | vpcmpgtd | vpcmpgtq
  | packuswb | packusdw | vpackuswb | vpackusdw
  | packsswb | packssdw | vpacksswb | vpackssdw
  | paddb | paddw | paddd | paddq | vpaddb | vpaddw | vpaddd | vpaddq
  | paddsb | paddsw | vpaddsb | vpaddsw
  | emms | pmaddwd | vpmaddwd | pmulhw | vpmulhw | pmullw | vpmullw
  | por | vpor | vpord | vporq
  | pabsw | vpabsw | pabsb | vpabsb | pabsd | vpabsd
  | addsubps | vaddsubps | addsubpd | vaddsubpd
  | palignr | vpalignr | pavgb | vpavgb | pavgw | vpavgw
  | pblendw | vpblendw | pblendvb | vpblendvb | vpblendd
  | blendps | vblendps | blendpd | vblendpd
  | blendvps | vblendvps | blendvpd | vblendvpd
  | vbroadcastf128 | vbroadcastf32x2 | vbroadcastf32x4 | vbroadcastf32x8
  | vbroadcastf64x2 | vbroadcastf64x4
  | vbroadcasti128 | vbroadcasti32x2 | vbroadcasti32x4 | vbroadcasti32x8
  | vbroadcasti64x2 | vbroadcasti64x4
  | vbroadcastsd | vbroadcastss
  | vpbroadcastb | vpbroadcastd | vpbroadcastmb2q | vpbroadcastmw2d
  | vpbroadcastq | vpbroadcastw
  | unsupported
deriving DecidableEq, Repr

/-- The decoded instruction record consumed by the translator: mnemonic and
`operand_count` (the field the vector-template loops iterate over). -/
structure Instruction where
  mnemonic : Mnemonic
  operand_count : Nat
deriving DecidableEq, Repr

/-- The `for (operandIndex = 1; operandIndex < operand_count; operandIndex++)`
loops of the vector templates (zydec.cpp:278-284, 365-371, 796-802): each
iteration writes `", "` when past the first listed operand, then the operand
itself.  Structural recursion on the number of remaining iterations. -/
def vecOperandLoopAux (ops : List Operand) (va : Nat) : Nat → Nat → EmitProg
  | 0, _ => .raw ""
  | remaining + 1, operandIndex =>
    .seq (if 1 < operandIndex then .raw ", " else .raw "")
      (.seq (zydec_WriteOperand (ops.getD operandIndex .unused) va)
        (vecOperandLoopAux ops va remaining (operandIndex + 1)))

/-- The full operand loop: `count - 1` iterations starting at index 1. -/
def vecOperandLoop (ops : List Operand) (va : Nat) (count : Nat) : EmitProg :=
  vecOperandLoopAux ops va (count - 1) 1

/-- Inner suffix `switch` of the aligned vector-move template
(zydec.cpp:243-268). -/
def alignedMoveSuffix : Mnemonic → String
  | .movaps => "_ps("
  | .movapd => "_pd("
  | .vmovdqa => "_si("
  | .vmovdqa32 => "_epi32("
  | .vmovdqa64 => "_epi64("
  | _ => "("

/-- Inner suffix `switch` of the unaligned vector-move template
(zydec.cpp:314-355); note it repeats the (unreachable) `MOVAPS`/`MOVAPD`
labels of the aligned template, and `VMOVD` falls to the default `"("`. -/
def unalignedMoveSuffix : Mnemonic → String
  | .movaps => "_ps("
  | .movapd => "_pd("
  | .movq => "_si64("
  | .lddqu => "_cross_cache_line_si("
  | .vmovdqu => "_si("
  | .vmovdqu16 => "_epi16("
  | .vmovdqu32 => "_epi32("
  | .vmovdqu64 => "_epi64("
  | .vmovdqu8 => "_epi8("
  | _ => "("

/-- Shared body of the two vector-move templates (zydec.cpp:231-289 and
302-376): pick store/load by which operand is a memory/pointer location,
append the element-type suffix, then either `dst = src` (register-to-register)
or the call-argument list from operand index 1 onward. -/
def vecMoveBody (storeText loadText : String) (suffix : String)
    (ops : List Operand) (va : Nat) (count : Nat) : EmitProg :=
  let op0 := ops.getD 0 .unused
  let op1 := ops.getD 1 .unused
  let isReg2RegMove := !op0.isMemOrPtr && !op1.isMemOrPtr
  pseq [(if op0.isMemOrPtr then .raw storeText
         else if op1.isMemOrPtr then .raw loadText
         else .raw ""),
        (if !isReg2RegMove then .raw suffix else .raw ""),
        zydec_WriteOperand op0 va,
        (if isReg2RegMove then .raw " = " else .raw ", "),
        vecOperandLoop ops va count,
        (if !isReg2RegMove then .raw ")" else .raw "")]

/-- Inner intrinsic-name `switch` of the vector arithmetic/logical/compare/
blend/broadcast template (zydec.cpp:487-794), including its `default`
`"_mm_??_("` and the `PABSB -> _mm_abs_epi16(` entry exactly as in the
source. -/
def vecIntrinsicName : Mnemonic → String
  | .pand | .vpand => "_mm_and_si("
  | .vpandq => "_mm_and_epi64("
  | .vpandd => "_mm_and_epi32("
  | .pandn | .vpandn => "_mm_andnot_si("
  | .vpandnq => "_mm_andnot_epi64("
  | .vpandnd => "_mm_andnot_epi32("
  | .pcmpeqb | .vpcmpeqb => "_mm_cmpeq_epi8("
  | .pcmpeqw | .vpcmpeqw => "_mm_cmpeq_epi16("
  | .pcmpeqd | .vpcmpeqd => "_mm_cmpeq_epi32("
  | .pcmpeqq | .vpcmpeqq => "_mm_cmpeq_epi64("
  | .pcmpgtb | .vpcmpgtb => "_mm_cmpgt_epi8("
  | .pcmpgtw | .vpcmpgtw => "_mm_cmpgt_epi16("
  | .pcmpgtd | .vpcmpgtd => "_mm_cmpgt_epi32("
  | .pcmpgtq | .vpcmpgtq => "_mm_cmpgt_epi64("
  | .packuswb | .vpackuswb => "_mm_packus_epu16_to_epi8("
  | .packusdw | .vpackusdw => "_mm_packus_epu32_to_epi16("
  | .packsswb | .vpacksswb => "_mm_packs_epu16_to_epi8("
  | .packssdw | .vpackssdw => "_mm_packs_epu32_to_epi16("
  | .paddb | .vpaddb => "_mm_add_epi8("
  | .paddw | .vpaddw => "_mm_add_epi16("
  | .paddd | .vpaddd => "_mm_add_epi32("
  | .paddq | .vpaddq => "_mm_add_epi64("
  | .paddsb | .paddsw => "_mm_adds_epi8("
  | .vpaddsb | .vpaddsw => "_mm_adds_epi16("
  | .emms => "_mm_empty("
  | .pmaddwd | .vpmaddwd => "_mm_pmadd_epi16("
  | .pmulhw | .vpmulhw => "_mm_mulhi_epi16("
  | .pmullw | .vpmullw => "_mm_mullo_epi16("
  | .por | .vpor => "_mm_or_si("
  | .vpord => "_mm_or_epi32("
  | .vporq => "_mm_or_epi64("
  | .pabsb | .vpabsb => "_mm_abs_epi16("
  | .pabsw | .vpabsw => "_mm_abs_epi16("
  | .pabsd | .vpabsd => "_mm_abs_epi32("
  | .addsubps | .vaddsubps => "_mm_addsub_ps("
  | .addsubpd | .vaddsubpd => "_mm_addsub_pd("
  | .palignr | .vpalignr => "_mm_alignr_epi8("
  | .pavgb | .vpavgb => "_mm_avg_epu8("
  | .pavgw | .vpavgw => "_mm_avg_epu16("
  | .pblendw | .vpblendw => "_mm_blend_epi16("
  | .vpblendd => "_mm_blend_epi32("
  | .blendps | .vblendps => "_mm_blend_ps("
  | .blendpd | .vblendpd => "_mm_blend_pd("
  | .pblendvb | .vpblendvb => "_mm_blendv_epi8("
  | .blendvps | .vblendvps => "_mm_blendv_ps("
  | .blendvpd | .vblendvpd => "_mm_blendv_pd("
  | .vbroadcastf128 => "_mm_broadcast_f128("
  | .vbroadcastf32x2 => "_mm_broadcast_f32x2("
  | .vbroadcastf32x4 => "_mm_broadcast_f32x4("
  | .vbroadcastf32x8 => "_mm_broadcast_f32x8("
  | .vbroadcastf64x2 => "_mm_broadcast_f64x2("
  | .vbroadcastf64x4 => "_mm_broadcast_f64x4("
  | .vbroadcasti128 => "_mm_broadcastsi128_si256("
  | .vbroadcasti32x2 => "_mm_broadcast_i32x2("
  | .vbroadcasti32x4 => "_mm_broadcast_i32x4("
  | .vbroadcasti32x8 => "_mm_broadcast_i32x8("
  | .vbroadcasti64x2 => "_mm_broadcast_i64x2("
  | .vbroadcasti64x4 => "_mm_broadcast_i64x4("
  | .vbroadcastsd => "_mm_broadcast_sd("
  | .vbroadcastss => "_mm_broadcast_ss("
  | .vpbroadcastb => "_mm_broadcast_epi8("
  | .vpbroadcastw => "_mm_broadcast_epi16("
  | .vpbroadcastd => "_mm_broadcast_epi32("
  | .vpbroadcastq => "_mm_broadcast_epi64("
  | .vpbroadcastmb2q => "_mm_broadcastmb_epi64("
  | .vpbroadcastmw2d => "_mm_broadcastmw_epi32("
  | _ => "_mm_??_("

/-- The per-mnemonic `switch` of
`zydec_TranslateInstructionWithoutContext` (zydec.cpp:59-812): for a
recognised mnemonic, the write sequence of its template body together with a
flag marking the cases that `return true` directly (skipping the shared
trailing `";"`); `none` for the `default` branch (unsupported mnemonic). -/
def zydec_TranslateSwitch (pInstruction : Instruction) (ops : List Operand)
    (virtualAddress : Nat) : Option (EmitProg × Bool) :=
  let wOp (i : Nat) : EmitProg := zydec_WriteOperand (ops.getD i .unused) virtualAddress
  match pInstruction.mnemonic with
  | .mov => some (pseq [wOp 0, .raw " = ", wOp 1], false)
  | .lea => some (pseq [wOp 0, .raw " = &", wOp 1], false)
  | .test =>
    some (pseq [.raw "compare(", wOp 0, .raw ", ", wOp 1,
                .raw ") // set carry_flag, parity_flag, zero_flag"], true)
  | .cmp =>
    some (pseq [.raw "compare(", wOp 0, .raw ", ", wOp 1,
                .raw ") // set carry_flag, overflow_flag, signed_flag, zero_flag, aux_carry_flag and parity_flag"],
          true)
  | .call => some (pseq [.raw "(", wOp 0, .raw ")()"], false)
  | .jmp => some (pseq [.raw "goto ", wOp 0], false)
  | .jb => some (pseq [.raw "if (carry_flag) goto ", wOp 0, .raw "; // if below"], true)
  | .jbe =>
    some (pseq [.raw "if (carry_flag || zero_flag) goto ", wOp 0,
                .raw "; // if below or equal"], true)
  | .jcxz => some (pseq [.raw "if ((u16)c == 0) goto ", wOp 0], false)
  | .jecxz => some (pseq [.raw "if ((u32)c == 0) goto ", wOp 0], false)
  | .jl =>
    some (pseq [.raw "if (sign_flag != overflow_flag) goto ", wOp 0,
                .raw "; // if less"], true)
  | .jle =>
    some (pseq [.raw "if (zero_flag || sign_flag != overflow_flag) goto ", wOp 0,
                .raw "; // if less or equal"], true)
  | .jnb => some (pseq [.raw "if (!carry_flag) goto ", wOp 0, .raw "; // if not below"], true)
  | .jnbe =>
    some (pseq [.raw "if (!carry_flag && !zero_flag) goto ", wOp 0,
                .raw "; // if not below or equal"], true)
  | .jnl =>
    some (pseq [.raw "if (sign_flag && overflow_flag) goto ", wOp 0,
                .raw "; // if not less"], true)
  | .jnle =>
    some (pseq [.raw "if (!zero_flag && sign_flag == overflow_flag) goto ", wOp 0,
                .raw "; // if not less or equal"], true)
  | .jno => some (pseq [.raw "if (!overflow_flag) goto ", wOp 0], false)
  | .jnp => some (pseq [.raw "if (!parity_flag) goto ", wOp 0], false)
  | .jns => some (pseq [.raw "if (!sign_flag) goto ", wOp 0], false)
  | .jnz =>
    some (pseq [.raw "if (!zero_flag) goto ", wOp 0,
                .raw "; // if not zero / not equal"], true)
  | .jo => some (pseq [.raw "if (overflow_flag) goto ", wOp 0], false)
  | .jp => some (pseq [.raw "if (parity_flag) goto ", wOp 0], false)
  | .js => some (pseq [.raw "if (sign_flag) goto ", wOp 0], false)
  | .jz =>
    some (pseq [.raw "if (zero_flag) goto ", wOp 0,
                .raw "; // if zero / equal"], true)
  | .sub => some (pseq [wOp 0, .raw " -= ", wOp 1], false)
  | .add => some (pseq [wOp 0, .raw " += ", wOp 1], false)
  | .and => some (pseq [wOp 0, .raw " &= ", wOp 1], false)
  | .or => some (pseq [wOp 0, .raw " |= ", wOp 1], false)
  | .movaps | .movapd | .vmovdqa | .vmovdqa32 | .vmovdqa64 =>
    some (vecMoveBody "_mm_aligned_store" "_mm_aligned_load"
            (alignedMoveSuffix pInstruction.mnemonic) ops virtualAddress
            pInstruction.operand_count, false)
  | .movups | .movupd | .movq | .lddqu | .vmovd
  | .vmovdqu | .vmovdqu16 | .vmovdqu32 | .vmovdqu64 | .vmovdqu8 =>
    some (vecMoveBody "_mm_unaligned_store" "_mm_unaligned_load"
            (unalignedMoveSuffix pInstruction.mnemonic) ops virtualAddress
            pInstruction.operand_count, false)
  | .unsupported => none
  | m =>
    some (pseq [wOp 0, .raw " = ", .raw (vecIntrinsicName m),
                vecOperandLoop ops virtualAddress pInstruction.operand_count,
                .raw ")"], false)

/-- Result of one translation call: the returned `bool`, the buffer contents
(`none` = the caller's buffer was never touched), and the value stored to
`*pHasTranslation` (`none` = never written). -/
structure TranslateResult where
  result : Bool
  buffer : Option String
  hasTranslation : Option Bool
deriving DecidableEq, Repr

/-- `zydec_TranslateInstructionWithoutContext` (zydec.cpp:48-817).
Null pointers are modelled by `none` (for the instruction and operand-list
pointers) and by `false` validity flags (for the output buffer and the
`pHasTranslation` pointer).  After the precondition check the writer state is
initialised to capacity `bufferCapacity - 1` over the empty string
(`bufferPos[0] = 0`), `*pHasTranslation` is set `true`, and the selected
template body runs, followed by the shared trailing `";"` unless the template
returns early. -/
def zydec_TranslateInstructionWithoutContext (pInstruction : Option Instruction)
    (pOperands : Option (List Operand)) (operandCount : Nat) (virtualAddress : Nat)
    (bufferNonNull : Bool) (bufferCapacity : Nat) (hasTranslationNonNull : Bool) :
    TranslateResult :=
  match pInstruction, pOperands with
  | some pInstr, some ops =>
    if operandCount = 0 ∨ bufferNonNull = false ∨ bufferCapacity = 0 ∨
        hasTranslationNonNull = false then
      { result := false, buffer := none, hasTranslation := none }
    else
      match zydec_TranslateSwitch pInstr ops virtualAddress with
      | none => { result := false, buffer := some "", hasTranslation := some false }
      | some (body, returnsEarly) =>
        let prog := if returnsEarly then body else .seq body (.raw ";")
        match run prog { out := "", rem := bufferCapacity - 1 } with
        | .ok st => { result := true, buffer := some st.out, hasTranslation := some true }
        | .error st => { result := false, buffer := some st.out, hasTranslation := some true }
  | _, _ => { result := false, buffer := none, hasTranslation := none }

example :
    zydec_TranslateInstructionWithoutContext (some ⟨.mov, 2⟩)
      (some [.register 53, .register 54]) 2 0 true 64 true
    = ⟨true, some "(i64)a = (i64)c;", some true⟩ := by decide
example :
    zydec_TranslateInstructionWithoutContext (some ⟨.jz, 1⟩)
      (some [.immediate ⟨0x10, false, true⟩]) 1 0x400000 true 128 true
    = ⟨true, some "if (zero_flag) goto 0x400010; // if zero / equal", some true⟩ := by decide
example :
    zydec_TranslateInstructionWithoutContext (some ⟨.test, 2⟩)
      (some [.register 53, .register 54]) 2 0 true 128 true
    = ⟨true, some "compare((i64)a, (i64)c) // set carry_flag, parity_flag, zero_flag",
        some true⟩ := by decide
example :
    zydec_TranslateInstructionWithoutContext (some ⟨.paddd, 3⟩)
      (some [.register 88, .register 89, .register 90]) 3 0 true 128 true
    = ⟨true, some "(m128)x0 = _mm_add_epi32((m128)x1, (m128)x2);", some true⟩ := by decide

/-! ## Behaviour of the buffer writer over a whole write sequence

Every write's text depends only on the decoded input, so a write sequence
with total emitted text `s` succeeds exactly when `s.length` fits in the
remaining capacity, appends `s`, and consumes `s.length` bytes of capacity;
with less capacity (or with an unconditional failure in the sequence) it
fails. -/

theorem run_flatten_some (p : EmitProg) :
    ∀ s : String, flatten p = some s → ∀ out rem,
      (s.length ≤ rem → run p ⟨out, rem⟩ = .ok ⟨out ++ s, rem - s.length⟩) ∧
      (rem < s.length → ∃ e, run p ⟨out, rem⟩ = .error e) := by
  induction p with
  | raw t =>
    intro s hs out rem
    simp only [flatten, Option.some.injEq] at hs
    subst hs
    refine ⟨fun hle => ?_, fun hlt => ?_⟩
    · simp [run, zydec_WriteRaw, Nat.not_lt.mpr hle]
    · exact ⟨⟨out, rem⟩, by simp [run, zydec_WriteRaw, hlt]⟩
  | fail =>
    intro s hs
    simp [flatten] at hs
  | seq a b iha ihb =>
    intro s hs out rem
    rcases hx : flatten a with _ | x <;> rcases hy : flatten b with _ | y <;>
      simp [flatten, hx, hy] at hs
    subst hs
    have hlen : (x ++ y).length = x.length + y.length := String.length_append x y
    refine ⟨fun hle => ?_, fun hlt => ?_⟩
    · have hxle : x.length ≤ rem := by omega
      have ha := (iha x hx out rem).1 hxle
      have hb := (ihb y hy (out ++ x) (rem - x.length)).1 (by omega)
      have hrem : rem - x.length - y.length = rem - (x ++ y).length := by omega
      simp only [run, ha, Except.bind, hb]
      rw [String.append_assoc, hrem]
    · by_cases hxle : x.length ≤ rem
      · have ha := (iha x hx out rem).1 hxle
        obtain ⟨e, he⟩ := (ihb y hy (out ++ x) (rem - x.length)).2 (by omega)
        exact ⟨e, by simp only [run, ha, Except.bind, he]⟩
      · obtain ⟨e, he⟩ := (iha x hx out rem).2 (by omega)
        exact ⟨e, by simp only [run, he, Except.bind]⟩

theorem run_flatten_none (p : EmitProg) (h : flatten p = none) :
    ∀ st, ∃ e, run p st = .error e := by
  induction p with
  | raw t => simp [flatten] at h
  | fail => exact fun st => ⟨st, rfl⟩
  | seq a b iha ihb =>
    intro st
    rcases hx : flatten a with _ | x
    · obtain ⟨e, he⟩ := iha hx st
      exact ⟨e, by simp only [run, he, Except.bind]⟩
    · rcases hy : flatten b with _ | y
      · rcases st with ⟨out, rem⟩
        by_cases hxle : x.length ≤ rem
        · have ha := (run_flatten_some a x hx out rem).1 hxle
          obtain ⟨e, he⟩ := ihb hy ⟨out ++ x, rem - x.length⟩
          exact ⟨e, by simp only [run, ha, Except.bind, he]⟩
        · obtain ⟨e, he⟩ := (run_flatten_some a x hx out rem).2 (by omega)
          exact ⟨e, by simp only [run, he, Except.bind]⟩
      · simp [flatten, hx, hy] at h

theorem run_ok_flatten (p : EmitProg) (out : String) (rem : Nat) (st2 : WState)
    (h : run p ⟨out, rem⟩ = .ok st2) :
    ∃ s, flatten p = some s ∧ s.length ≤ rem ∧ st2 = ⟨out ++ s, rem - s.length⟩ := by
  rcases hf : flatten p with _ | s
  · obtain ⟨e, he⟩ := run_flatten_none p hf ⟨out, rem⟩
    rw [he] at h
    cases h
  · by_cases hle : s.length ≤ rem
    · have hok := (run_flatten_some p s hf out rem).1 hle
      rw [hok] at h
      exact ⟨s, rfl, hle, (Except.ok.injEq _ _ ▸ h).symm⟩
    · obtain ⟨e, he⟩ := (run_flatten_some p s hf out rem).2 (by omega)
      rw [he] at h
      cases h

/-- The entry point after a passed argument check, expressed through the
template dispatch: used to reason uniformly about capacities. -/
theorem translate_eq (instr : Instruction) (ops : List Operand)
    (operandCount virtualAddress cap : Nat)
    (hcnt : operandCount ≠ 0) (hcap : cap ≠ 0) :
    zydec_TranslateInstructionWithoutContext (some instr) (some ops) operandCount
        virtualAddress true cap true =
      match zydec_TranslateSwitch instr ops virtualAddress with
      | none => ⟨false, some "", some false⟩
      | some (body, returnsEarly) =>
        match run (if returnsEarly then body else .seq body (.raw ";"))
            { out := "", rem := cap - 1 } with
        | .ok st => ⟨true, some st.out, some true⟩
        | .error st => ⟨false, some st.out, some true⟩ := by
  simp [zydec_TranslateInstructionWithoutContext, hcnt, hcap]

/-! ## Claim theorems -/

/-- C1: the hexadecimal formatter prefixes `0x` and emits uppercase digits
with no leading zeros, as witnessed on 255 and 4096 — but the code renders
value 0 as `"0x"`, with no digit at all (the `if (tmp != 0)` at
zydec.cpp:1171 skips the only digit), not as `"0x0"` as the claim states. -/
theorem C1_hex_rendering :
    zydec_WriteHex 0 = .raw "0x" ∧ hexStr 0 ≠ "0x0" ∧
    zydec_WriteHex 255 = .raw "0xFF" ∧ zydec_WriteHex 4096 = .raw "0x1000" := by
  decide

/-- C2: the unsigned-decimal formatter emits the decimal digits
most-significant first, as witnessed on 4294967295 — but the code renders
value 0 as the empty string (the `else bufFromEnd++` at zydec.cpp:1150 lands
the cursor on the terminator), not as `"0"` as the claim states. -/
theorem C2_udec_rendering :
    zydec_WriteUInt 0 = .raw "" ∧ uintStr 0 ≠ "0" ∧
    zydec_WriteUInt 4294967295 = .raw "4294967295" := by
  decide

/-- C10: for any value of 20 decimal digits (`10^19` up to the maximum
64-bit value) the digit loop of `zydec_WriteUInt` walks the cursor from
offset 18 down past offset 0 and the final digit store lands at offset `-1`,
outside the 20-byte scratch buffer; 19-digit values stay in bounds. -/
theorem C10_scratch_stores :
    (-1 : Int) ∈ zydec_WriteUIntStores 10000000000000000000 ∧
    (-1 : Int) ∈ zydec_WriteUIntStores 18446744073709551615 ∧
    (∀ i ∈ zydec_WriteUIntStores 9999999999999999999, 0 ≤ i ∧ i < 20) := by
  decide

/-- C5: an unrecognised mnemonic (the `default` branch, zydec.cpp:809-811)
makes the translator return failure with `hasTranslation = false` and the
buffer still holding the empty string it was initialised to, for any
arguments passing the entry check. -/
theorem C5_unsupported_mnemonic (n : Nat) (ops : List Operand)
    (operandCount virtualAddress cap : Nat)
    (hcnt : operandCount ≠ 0) (hcap : cap ≠ 0) :
    zydec_TranslateInstructionWithoutContext (some ⟨.unsupported, n⟩) (some ops)
        operandCount virtualAddress true cap true
      = ⟨false, some "", some false⟩ := by
  rw [translate_eq _ _ _ _ _ hcnt hcap]
  rfl

/-- Witness for C5 at a concrete unsupported instruction. -/
theorem C5_unsupported_mnemonic_witness :
    zydec_TranslateInstructionWithoutContext (some ⟨.unsupported, 2⟩)
        (some [.register 0]) 1 0 true 7 true
      = ⟨false, some "", some false⟩ :=
  C5_unsupported_mnemonic 2 [.register 0] 1 0 7 (by decide) (by decide)

/-- C7: a null instruction pointer, null operand list, zero operand count,
null buffer or zero buffer capacity is rejected by the argument check at
zydec.cpp:50-51 before anything is written: the call fails, `*pHasTranslation`
is never stored to and the buffer is untouched. -/
theorem C7_argument_check (pInstruction : Option Instruction)
    (pOperands : Option (List Operand)) (operandCount virtualAddress : Nat)
    (bufferNonNull : Bool) (bufferCapacity : Nat) (hasTranslationNonNull : Bool)
    (h : pInstruction = none ∨ pOperands = none ∨ operandCount = 0 ∨
        bufferNonNull = false ∨ bufferCapacity = 0) :
    zydec_TranslateInstructionWithoutContext pInstruction pOperands operandCount
        virtualAddress bufferNonNull bufferCapacity hasTranslationNonNull
      = ⟨false, none, none⟩ := by
  rcases pInstruction with _ | instr
  · rfl
  rcases pOperands with _ | ops
  · rfl
  simp only [Option.some.injEq, reduceCtorEq, false_or] at h
  have hcond : operandCount = 0 ∨ bufferNonNull = false ∨ bufferCapacity = 0 ∨
      hasTranslationNonNull = false := by tauto
  simp only [zydec_TranslateInstructionWithoutContext]
  rw [if_pos hcond]

/-- Witness for C7 on a null instruction pointer and on a zero capacity. -/
theorem C7_argument_check_witness :
    zydec_TranslateInstructionWithoutContext none (some [.register 0]) 1 0 true 64 true
      = ⟨false, none, none⟩ ∧
    zydec_TranslateInstructionWithoutContext (some ⟨.mov, 2⟩)
        (some [.register 53, .register 54]) 2 0 true 0 true
      = ⟨false, none, none⟩ :=
  ⟨C7_argument_check none (some [.register 0]) 1 0 true 64 true (by tauto),
   C7_argument_check (some ⟨.mov, 2⟩) (some [.register 53, .register 54]) 2 0 true 0 true
     (by tauto)⟩

/-- C8: for a register id inside the static table `zydec_WriteRegister`
deterministically writes the table's entry (and nothing else), succeeding
whenever the entry fits the remaining capacity; entry 0, the
`ZYDIS_REGISTER_NONE` sentinel, is the empty string; an id outside the table
always fails (zydec.cpp:1297-1298). -/
theorem C8_register_resolver (reg : Nat) :
    (reg < RegisterNameLut.length →
      zydec_WriteRegister reg = .raw (RegisterNameLut.getD reg "") ∧
      ∀ out rem, (RegisterNameLut.getD reg "").length ≤ rem →
        run (zydec_WriteRegister reg) ⟨out, rem⟩
          = .ok ⟨out ++ RegisterNameLut.getD reg "",
                 rem - (RegisterNameLut.getD reg "").length⟩) ∧
    (RegisterNameLut.length ≤ reg →
      zydec_WriteRegister reg = .fail ∧
      ∀ st, run (zydec_WriteRegister reg) st = .error st) ∧
    RegisterNameLut.getD 0 "" = "" := by
  refine ⟨fun h => ?_, fun h => ?_, rfl⟩
  · have hw : zydec_WriteRegister reg = .raw (RegisterNameLut.getD reg "") := by
      simp [zydec_WriteRegister, h]
    exact ⟨hw, fun out rem hle => by
      rw [hw]
      exact (run_flatten_some (.raw (RegisterNameLut.getD reg ""))
        (RegisterNameLut.getD reg "") rfl out rem).1 hle⟩
  · have hw : zydec_WriteRegister reg = .fail := by
      simp [zydec_WriteRegister, Nat.not_lt.mpr h]
    exact ⟨hw, fun st => by rw [hw]; rfl⟩

/-- Witness for C8 at register 53 (`(i64)a`) and the out-of-bounds id 266. -/
theorem C8_register_resolver_witness :
    zydec_WriteRegister 53 = .raw (RegisterNameLut.getD 53 "") ∧
    zydec_WriteRegister 266 = .fail :=
  ⟨((C8_register_resolver 53).1 (by decide)).1,
   ((C8_register_resolver 266).2.1 (by decide)).1⟩

/-- Counterexample for C3: at the claimed input the translator does not
produce the claimed line — the comment the code appends for `JZ`
(zydec.cpp:199) reads `"; // if zero / equal"`, not
`"; // if zero / not equal"`. -/
theorem C3_jz_claimed_line_counterexample :
    ¬ (zydec_TranslateInstructionWithoutContext (some ⟨.jz, 1⟩)
        (some [.immediate ⟨0x10, false, true⟩]) 1 0x400000 true 128 true
      = ⟨true, some "if (zero_flag) goto 0x400010; // if zero / not equal", some true⟩) := by
  decide

/-- C3 (amended): translating `JZ` with a relative immediate `0x10` at
virtual address `0x400000` succeeds for any buffer of capacity at least 49
and produces exactly
`"if (zero_flag) goto 0x400010; // if zero / equal"` — the relative
immediate is rendered as the hexadecimal sum of the virtual address and the
immediate. -/
theorem C3_jz_translation (cap : Nat) (h : 49 ≤ cap) :
    zydec_TranslateInstructionWithoutContext (some ⟨.jz, 1⟩)
        (some [.immediate ⟨0x10, false, true⟩]) 1 0x400000 true cap true
      = ⟨true, some "if (zero_flag) goto 0x400010; // if zero / equal", some true⟩ := by
  rw [translate_eq _ _ _ _ _ (by omega) (by omega)]
  have hsw : zydec_TranslateSwitch ⟨.jz, 1⟩ [.immediate ⟨0x10, false, true⟩] 0x400000
      = some (pseq [.raw "if (zero_flag) goto ",
                    zydec_WriteOperand (.immediate ⟨0x10, false, true⟩) 0x400000,
                    .raw "; // if zero / equal"], true) := rfl
  have hfs : flatten (pseq [.raw "if (zero_flag) goto ",
      zydec_WriteOperand (.immediate ⟨0x10, false, true⟩) 0x400000,
      .raw "; // if zero / equal"])
      = some "if (zero_flag) goto 0x400010; // if zero / equal" := by decide
  have hlen : ("if (zero_flag) goto 0x400010; // if zero / equal").length = 48 := by decide
  have hok := (run_flatten_some _ _ hfs "" (cap - 1)).1 (by omega)
  simp only [hsw, if_true]
  rw [hok]
  simp [String.empty_append]

/-- Witness for C3's amended statement at capacity 128. -/
theorem C3_jz_translation_witness :
    49 ≤ 128 ∧
    zydec_TranslateInstructionWithoutContext (some ⟨.jz, 1⟩)
        (some [.immediate ⟨0x10, false, true⟩]) 1 0x400000 true 128 true
      = ⟨true, some "if (zero_flag) goto 0x400010; // if zero / equal", some true⟩ :=
  ⟨by decide, C3_jz_translation 128 (by decide)⟩

/-- `zydec_WriteInt` always emits exactly `intStr` of its argument. -/
theorem flatten_WriteInt (v : Int) : flatten (zydec_WriteInt v) = some (intStr v) := by
  by_cases h : v < 0 <;> simp [zydec_WriteInt, intStr, h, flatten, zydec_WriteUInt]

/-- C6: on a direct (`MEM`-kind) memory operand with an explicit
displacement the formatter renders only the `" + <signed displacement>"`
clause — the index and scale do not appear in the output, whatever they are
(zydec.cpp:1219-1239 takes the displacement branch of the `else if`); the
index term, wrapped in parentheses with a `" * <scale>"` factor when the
scale is not 1, is rendered only when no displacement is present. -/
theorem C6_mem_disp_vs_index (m : MemOperand) (virtualAddress : Nat)
    (hkind : m.kind = .mem)
    (hseg : m.segment < RegisterNameLut.length) (hbase : m.base < RegisterNameLut.length)
    (hidx : m.index ≠ 0) :
    (m.has_displacement = true →
      flatten (zydec_WriteOperand (.memory m) virtualAddress)
        = some ("*(" ++ RegisterNameLut.getD m.segment "" ++ ": "
            ++ RegisterNameLut.getD m.base "" ++ " + " ++ intStr m.dispValue ++ ")")) ∧
    (m.has_displacement = false → m.index < RegisterNameLut.length →
      flatten (zydec_WriteOperand (.memory m) virtualAddress)
        = some ("*(" ++ RegisterNameLut.getD m.segment "" ++ ": "
            ++ RegisterNameLut.getD m.base "" ++ " + "
            ++ (if m.scale = 1 then RegisterNameLut.getD m.index ""
                else "(" ++ RegisterNameLut.getD m.index "" ++ " * " ++ uintStr m.scale ++ ")")
            ++ ")")) := by
  have hreg : ∀ r, r < RegisterNameLut.length →
      zydec_WriteRegister r = .raw (RegisterNameLut.getD r "") := fun r hr => by
    simp [zydec_WriteRegister, hr]
  constructor
  · intro hdisp
    simp [zydec_WriteOperand, hkind, hdisp, pseq, flatten, hreg _ hseg, hreg _ hbase,
          flatten_WriteInt, String.append_assoc]
  · intro hdisp hidxlt
    by_cases hscale : m.scale = 1 <;>
      simp [zydec_WriteOperand, hkind, hdisp, hidx, hscale, pseq, flatten,
            hreg _ hseg, hreg _ hbase, hreg _ hidxlt, zydec_WriteUInt,
            String.append_assoc]

/-- Witness for C6 on concrete operands: displacement present (index 54 and
scale 4 silently dropped), and displacement absent (index with scale
rendered). -/
theorem C6_mem_disp_vs_index_witness :
    flatten (zydec_WriteOperand (.memory ⟨.mem, 0, 59, 54, 4, true, -8⟩) 0)
      = some ("*(" ++ RegisterNameLut.getD 0 "" ++ ": " ++ RegisterNameLut.getD 59 ""
          ++ " + " ++ intStr (-8) ++ ")") ∧
    flatten (zydec_WriteOperand (.memory ⟨.mem, 0, 59, 54, 4, false, 0⟩) 0)
      = some ("*(" ++ RegisterNameLut.getD 0 "" ++ ": " ++ RegisterNameLut.getD 59 ""
          ++ " + "
          ++ (if (4 : Nat) = 1 then RegisterNameLut.getD 54 ""
              else "(" ++ RegisterNameLut.getD 54 "" ++ " * " ++ uintStr 4 ++ ")")
          ++ ")") :=
  ⟨(C6_mem_disp_vs_index ⟨.mem, 0, 59, 54, 4, true, -8⟩ 0 (by decide) (by decide)
      (by decide) (by decide)).1 (by decide),
   (C6_mem_disp_vs_index ⟨.mem, 0, 59, 54, 4, false, 0⟩ 0 (by decide) (by decide)
      (by decide) (by decide)).2 (by decide) (by decide)⟩

/-! ## Condition-code predicates of the conditional-jump templates

Each conditional-jump template emits a fixed C boolean expression over the
named flags (zydec.cpp:102-200).  The following functions transcribe those
emitted expressions over a flags valuation; the claim theorem couples each
one to the exact text the translator emits for its mnemonic. -/

/-- A valuation of the condition-code flags named in the emitted
predicates. -/
structure Flags where
  carry_flag : Bool
  zero_flag : Bool
  sign_flag : Bool
  overflow_flag : Bool
  parity_flag : Bool
deriving DecidableEq, Repr

/-- `JB` emits `carry_flag` (zydec.cpp:103). -/
def jbPred (f : Flags) : Bool := f.carry_flag

/-- `JBE` emits `carry_flag || zero_flag` (zydec.cpp:109). -/
def jbePred (f : Flags) : Bool := f.carry_flag || f.zero_flag

/-- `JL` emits `sign_flag != overflow_flag` (zydec.cpp:125). -/
def jlPred (f : Flags) : Bool := f.sign_flag != f.overflow_flag

/-- `JLE` emits `zero_flag || sign_flag != overflow_flag` (zydec.cpp:131). -/
def jlePred (f : Flags) : Bool := f.zero_flag || (f.sign_flag != f.overflow_flag)

/-- `JNB` emits `!carry_flag` (zydec.cpp:137). -/
def jnbPred (f : Flags) : Bool := !f.carry_flag

/-- `JNBE` emits `!carry_flag && !zero_flag` (zydec.cpp:143). -/
def jnbePred (f : Flags) : Bool := !f.carry_flag && !f.zero_flag

/-- `JNL` emits `sign_flag && overflow_flag` (zydec.cpp:149). -/
def jnlPred (f : Flags) : Bool := f.sign_flag && f.overflow_flag

/-- `JNLE` emits `!zero_flag && sign_flag == overflow_flag` (zydec.cpp:155). -/
def jnlePred (f : Flags) : Bool := !f.zero_flag && (f.sign_flag == f.overflow_flag)

/-- `JNO` emits `!overflow_flag` (zydec.cpp:161). -/
def jnoPred (f : Flags) : Bool := !f.overflow_flag

/-- `JNP` emits `!parity_flag` (zydec.cpp:166). -/
def jnpPred (f : Flags) : Bool := !f.parity_flag

/-- `JNS` emits `!sign_flag` (zydec.cpp:171). -/
def jnsPred (f : Flags) : Bool := !f.sign_flag

/-- `JNZ` emits `!zero_flag` (zydec.cpp:176). -/
def jnzPred (f : Flags) : Bool := !f.zero_flag

/-- `JO` emits `overflow_flag` (zydec.cpp:182). -/
def joPred (f : Flags) : Bool := f.overflow_flag

/-- `JP` emits `parity_flag` (zydec.cpp:187). -/
def jpPred (f : Flags) : Bool := f.parity_flag

/-- `JS` emits `sign_flag` (zydec.cpp:192). -/
def jsPred (f : Flags) : Bool := f.sign_flag

/-- `JZ` emits `zero_flag` (zydec.cpp:197). -/
def jzPred (f : Flags) : Bool := f.zero_flag

/-- The line the translator produces for a one-operand branch instruction
with a relative immediate `0` at virtual address `0x10` (so the rendered
target is `0x10`), used to pin each emitted predicate to the code. -/
def jccLine (m : Mnemonic) : Option String :=
  (zydec_TranslateInstructionWithoutContext (some ⟨m, 1⟩)
    (some [.immediate ⟨0, false, true⟩]) 1 0x10 true 128 true).buffer

/-- C9: of the complementary conditional-jump pairs, `not-below`,
`not-below-or-equal`, `not-less-or-equal`, `not-zero`, `not-overflow`,
`not-parity` and `not-sign` each emit exactly the boolean negation of their
counterpart's predicate — but `JNL` emits `sign_flag && overflow_flag`
(zydec.cpp:149), which is *not* the negation of `JL`'s
`sign_flag != overflow_flag`: with both flags clear, `JL`'s predicate and
`JNL`'s predicate are both false.  The final conjuncts pin every transcribed
predicate to the exact text the translator emits. -/
theorem C9_jcc_predicates :
    (∀ c z s o p : Bool, jnbPred ⟨c, z, s, o, p⟩ = !jbPred ⟨c, z, s, o, p⟩) ∧
    (∀ c z s o p : Bool, jnbePred ⟨c, z, s, o, p⟩ = !jbePred ⟨c, z, s, o, p⟩) ∧
    (∀ c z s o p : Bool, jnlePred ⟨c, z, s, o, p⟩ = !jlePred ⟨c, z, s, o, p⟩) ∧
    (∀ c z s o p : Bool, jnzPred ⟨c, z, s, o, p⟩ = !jzPred ⟨c, z, s, o, p⟩) ∧
    (∀ c z s o p : Bool, jnoPred ⟨c, z, s, o, p⟩ = !joPred ⟨c, z, s, o, p⟩) ∧
    (∀ c z s o p : Bool, jnpPred ⟨c, z, s, o, p⟩ = !jpPred ⟨c, z, s, o, p⟩) ∧
    (∀ c z s o p : Bool, jnsPred ⟨c, z, s, o, p⟩ = !jsPred ⟨c, z, s, o, p⟩) ∧
    ¬ (∀ c z s o p : Bool, jnlPred ⟨c, z, s, o, p⟩ = !jlPred ⟨c, z, s, o, p⟩) ∧
    jlPred ⟨false, false, false, false, false⟩ = false ∧
    jnlPred ⟨false, false, false, false, false⟩ = false ∧
    jccLine .jb = some "if (carry_flag) goto 0x10; // if below" ∧
    jccLine .jbe = some "if (carry_flag || zero_flag) goto 0x10; // if below or equal" ∧
    jccLine .jl = some "if (sign_flag != overflow_flag) goto 0x10; // if less" ∧
    jccLine .jle
      = some "if (zero_flag || sign_flag != overflow_flag) goto 0x10; // if less or equal" ∧
    jccLine .jnb = some "if (!carry_flag) goto 0x10; // if not below" ∧
    jccLine .jnbe
      = some "if (!carry_flag && !zero_flag) goto 0x10; // if not below or equal" ∧
    jccLine .jnl = some "if (sign_flag && overflow_flag) goto 0x10; // if not less" ∧
    jccLine .jnle
      = some "if (!zero_flag && sign_flag == overflow_flag) goto 0x10; // if not less or equal" ∧
    jccLine .jnz = some "if (!zero_flag) goto 0x10; // if not zero / not equal" ∧
    jccLine .jz = some "if (zero_flag) goto 0x10; // if zero / equal" ∧
    jccLine .jo = some "if (overflow_flag) goto 0x10;" ∧
    jccLine .jno = some "if (!overflow_flag) goto 0x10;" ∧
    jccLine .jp = some "if (parity_flag) goto 0x10;" ∧
    jccLine .jnp = some "if (!parity_flag) goto 0x10;" ∧
    jccLine .js = some "if (sign_flag) goto 0x10;" ∧
    jccLine .jns = some "if (!sign_flag) goto 0x10;" := by
  decide

/-- C4: if a translation succeeds at some capacity and its rendered line is
`s` (of length `L = s.length`), then a buffer of capacity `L + 1` succeeds
with the same null-terminated line, while a buffer of capacity `L` fails:
the writer uses `bufferCapacity - 1` as usable text capacity, reserving one
byte for the terminator (zydec.cpp:54, 1309). -/
theorem C4_capacity_boundary (instr : Instruction) (ops : List Operand)
    (operandCount virtualAddress cap : Nat) (s : String)
    (h : zydec_TranslateInstructionWithoutContext (some instr) (some ops) operandCount
        virtualAddress true cap true = ⟨true, some s, some true⟩) :
    zydec_TranslateInstructionWithoutContext (some instr) (some ops) operandCount
        virtualAddress true (s.length + 1) true = ⟨true, some s, some true⟩ ∧
    (zydec_TranslateInstructionWithoutContext (some instr) (some ops) operandCount
        virtualAddress true s.length true).result = false := by
  have hcnt : operandCount ≠ 0 := by
    intro h0
    rw [h0] at h
    simp [zydec_TranslateInstructionWithoutContext] at h
  have hcap : cap ≠ 0 := by
    intro h0
    rw [h0] at h
    simp [zydec_TranslateInstructionWithoutContext] at h
  rw [translate_eq _ _ _ _ _ hcnt hcap] at h
  rcases hsw : zydec_TranslateSwitch instr ops virtualAddress with _ | be
  · rw [hsw] at h
    simp at h
  · obtain ⟨body, early⟩ := be
    rw [hsw] at h
    simp only [] at h
    rcases hr : run (if early = true then body else body.seq (.raw ";"))
        { out := "", rem := cap - 1 } with st | st
    · rw [hr] at h
      simp at h
    · rw [hr] at h
      simp only [TranslateResult.mk.injEq, Option.some.injEq, true_and, and_true] at h
      obtain ⟨t, hf, hle, hst⟩ := run_ok_flatten _ "" (cap - 1) st hr
      have hts : t = s := by
        rw [hst] at h
        simpa [String.empty_append] using h
      subst hts
      constructor
      · rw [translate_eq _ _ _ _ _ hcnt (by omega), hsw]
        simp only [Nat.add_sub_cancel]
        have hok := (run_flatten_some _ _ hf "" t.length).1 (le_refl _)
        rw [hok]
        simp [String.empty_append]
      · by_cases hz : t.length = 0
        · rw [hz]
          simp [zydec_TranslateInstructionWithoutContext]
        · obtain ⟨e, he⟩ := (run_flatten_some _ _ hf "" (t.length - 1)).2 (by omega)
          rw [translate_eq _ _ _ _ _ hcnt hz]
          simp only [hsw]
          rw [he]

/-- Witness for C4 at a concrete register-to-register `MOV` whose rendered
line `"(i64)a = (i64)c;"` has length 16: capacity 17 succeeds, capacity 16
fails. -/
theorem C4_capacity_boundary_witness :
    zydec_TranslateInstructionWithoutContext (some ⟨.mov, 2⟩)
        (some [.register 53, .register 54]) 2 0 true
        (("(i64)a = (i64)c;").length + 1) true
      = ⟨true, some "(i64)a = (i64)c;", some true⟩ ∧
    (zydec_TranslateInstructionWithoutContext (some ⟨.mov, 2⟩)
        (some [.register 53, .register 54]) 2 0 true
        (("(i64)a = (i64)c;").length) true).result = false :=
  C4_capacity_boundary ⟨.mov, 2⟩ [.register 53, .register 54] 2 0 64 "(i64)a = (i64)c;"
    (by decide)
